import Mathlib

/-!
Shallow embedding of the library-management REST client
(`client/app.js`: cache management, authentication state and the
`apiRequest` helper) together with a model of the server-side
inventory rules engine, and proofs of the stated cache and
inventory properties.
-/

namespace LibraryClient

/-! ### String utilities

JavaScript's `String.prototype.includes(pattern)` tests whether
`pattern` occurs as a contiguous substring.  We implement the same
test on the character lists underlying Lean strings. -/

/-- Does the list `pat` occur at the very beginning of `s`? -/
def listLeadsWith : List Char → List Char → Bool
  | [], _ => true
  | _ :: _, [] => false
  | a :: as, b :: bs => a = b && listLeadsWith as bs

/-- Does `pat` occur as a contiguous sublist of `s`? -/
def listHasSub : List Char → List Char → Bool
  | s, pat =>
    if listLeadsWith pat s then true
    else
      match s with
      | [] => false
      | _ :: rest => listHasSub rest pat

/-- JavaScript `s.includes(pat)`: `pat` occurs as a substring of `s`. -/
def strIncludes (s pat : String) : Bool :=
  listHasSub s.data pat.data

example : strIncludes "/api/books?page=1" "/books" = true := by decide
example : strIncludes "/api/borrow-records" "/books" = false := by decide

/-! ### Cache data model

The client keeps an in-memory `Map` from request URL to
`{ data, etag, timestamp }`.  We model the `Map` as an association
list in insertion order (JavaScript `Map` iterates in insertion
order; `set` on an existing key updates in place). -/

/-- JSON payloads are opaque to the cache layer; we model them as strings. -/
abbrev Payload := String

/-- One cache record: `{ data: {...}, etag: "...", timestamp: ... }`. -/
structure CacheEntry where
  data : Payload
  etag : String
  timestamp : Nat
deriving Repr, DecidableEq

/-- The `apiCache` map, URL-keyed, in insertion order. -/
abbrev Cache := List (String × CacheEntry)

/-- `apiCache.get(url)`. -/
def cacheLookup : Cache → String → Option CacheEntry
  | [], _ => none
  | (k, v) :: rest, key => if k = key then some v else cacheLookup rest key

/-- `apiCache.delete(url)`. -/
def cacheDelete (m : Cache) (key : String) : Cache :=
  m.filter (fun kv => kv.1 ≠ key)

/-- `apiCache.set(url, v)`: update in place when the key exists,
append otherwise (JavaScript `Map` semantics). -/
def cacheSet (m : Cache) (key : String) (v : CacheEntry) : Cache :=
  if (cacheLookup m key).isSome then
    m.map (fun kv => if kv.1 = key then (key, v) else kv)
  else
    m ++ [(key, v)]

/-- `getCachedResponse(url, maxAge = 60)` evaluated at time `now`
(milliseconds, the source's `Date.now()`).  The source computes
`age = (Date.now() - cached.timestamp) / 1000` with float division and
purges when `age > maxAge`; for integer times this is exactly
`now - timestamp > maxAge * 1000`.  (A clock running backwards gives a
negative age in JavaScript, which is not `> maxAge`; truncated `Nat`
subtraction yields `0`, matching that behaviour.)  Returns the map
after the possible expiry purge together with the lookup result. -/
def getCachedResponse (cache : Cache) (url : String) (maxAge : Nat) (now : Nat) :
    Cache × Option CacheEntry :=
  match cacheLookup cache url with
  | none => (cache, none)
  | some c =>
    if now - c.timestamp > maxAge * 1000 then (cacheDelete cache url, none)
    else (cache, some c)

/-- `setCachedResponse(url, data, etag)` evaluated at time `now`. -/
def setCachedResponse (cache : Cache) (url : String) (data : Payload) (etag : String)
    (now : Nat) : Cache :=
  cacheSet cache url ⟨data, etag, now⟩

/-- `clearCache(pattern = null)`: with no pattern the whole map is
cleared; with a pattern every entry whose key contains the pattern is
deleted. -/
def clearCache (cache : Cache) (pattern : Option String) : Cache :=
  match pattern with
  | none => []
  | some pat => cache.filter (fun kv => !(strIncludes kv.1 pat))

/-! ### HTTP model

`apiRequest(endpoint, options)` talks to the network through `fetch`.
We model the server side of one round trip as data: the response
status, the ETag and Cache-Control headers, and the JSON body (with
`none` standing for a body on which `response.json()` rejects, e.g.
the empty body of a `304`).  A transport-level failure (the `fetch`
promise rejecting) is the other fetch outcome. -/

/-- The observable parts of a `fetch` response. -/
structure HttpResponse where
  status : Nat
  etagHeader : Option String
  /-- The `Cache-Control` header; the source reads it only to print a
  `max-age` value in a log message, so it never affects state. -/
  cacheControl : Option String
  body : Option Payload
deriving Repr, DecidableEq

/-- Outcome of the `fetch` call: a response, or a rejected promise. -/
inductive FetchOutcome where
  | success (r : HttpResponse)
  | networkError
deriving Repr, DecidableEq

/-- `response.ok`: status in the range 200..299. -/
def respOk (r : HttpResponse) : Bool :=
  200 ≤ r.status && r.status < 300

/-- JavaScript truthiness of an ETag header value:
`headers.get` yields `null` (here `none`) or a string, and the empty
string is falsy. -/
def etagTruthy : Option String → Bool
  | none => false
  | some e => e != ""

/-- The source treats a request as a GET when `options.method` is
absent or equal to `"GET"` (`!options.method || options.method === 'GET'`). -/
def isGetMethod : Option String → Bool
  | none => true
  | some m => m = "GET"

/-- `['POST', 'PUT', 'DELETE'].includes(options.method)` (with an
absent method being falsy). -/
def isMutation : Option String → Bool
  | none => false
  | some m => m = "POST" || m = "PUT" || m = "DELETE"

def API_BASE_URL : String := "http://localhost:5000/api"

/-- Client-side state touched by `apiRequest`: the `apiCache` map and
the JWT token kept in `localStorage` (DOM rendering and log output are
not modelled). -/
structure ClientState where
  cache : Cache
  token : Option String
deriving Repr, DecidableEq

/-- What the `apiRequest` promise resolves to:
`ok status okFlag result` models the `{ response, result }` object
(recording `response.status`, `response.ok` and the parsed body);
`authFailure` is the `null` returned on a 401 after clearing state;
`connError` is the `null` returned from the `catch` block after the
connection-error alert. -/
inductive ApiOutcome where
  | ok (status : Nat) (okFlag : Bool) (result : Payload)
  | authFailure
  | connError
deriving Repr, DecidableEq

/-- The request that `apiRequest` hands to `fetch`: its URL, the
`If-None-Match` header if one was attached, and whether an
`Authorization` header was attached.  `apiRequest` always issues
exactly one fetch, so every call produces such a record. -/
structure SentRequest where
  url : String
  ifNoneMatch : Option String
  hasAuthHeader : Bool
deriving Repr, DecidableEq

/-- The full observable behaviour of one `apiRequest` call. -/
structure ApiCall where
  state : ClientState
  outcome : ApiOutcome
  sent : SentRequest
deriving Repr, DecidableEq

/-- The `if (response.ok && (!options.method || options.method === 'GET'))`
block: cache the parsed body under the request URL when the response
carries a truthy ETag header. -/
def storeCacheableGet (method : Option String) (fullUrl : String) (r : HttpResponse)
    (result : Payload) (now : Nat) (cache : Cache) : Cache :=
  match r.etagHeader with
  | some e =>
    if respOk r && isGetMethod method && e != "" then
      setCachedResponse cache fullUrl result e now
    else cache
  | none => cache

/-- The mutation-invalidation block: after a `POST`/`PUT`/`DELETE`,
an endpoint containing `/books` clears the `/books` and `/statistics`
patterns; otherwise an endpoint containing `/borrow-records` clears
the `/borrow-records`, `/books` and `/statistics` patterns. -/
def invalidateAfterMutation (method : Option String) (endpoint : String)
    (cache : Cache) : Cache :=
  if isMutation method then
    if strIncludes endpoint "/books" then
      clearCache (clearCache cache (some "/books")) (some "/statistics")
    else if strIncludes endpoint "/borrow-records" then
      clearCache (clearCache (clearCache cache (some "/borrow-records"))
        (some "/books")) (some "/statistics")
    else cache
  else cache

/-- Everything from `const result = await response.json()` onwards:
a rejecting body parse lands in the `catch` block; a 401 removes the
token, clears the whole cache and returns `null`; otherwise cacheable
GET responses are stored, mutation invalidation runs, and
`{ response, result }` is returned. -/
def handleResponse (token : Option String) (cache : Cache) (endpoint : String)
    (method : Option String) (fullUrl : String) (tResp : Nat) (r : HttpResponse) :
    ClientState × ApiOutcome :=
  match r.body with
  | none => (⟨cache, token⟩, .connError)
  | some result =>
    if r.status = 401 then
      (⟨clearCache cache none, none⟩, .authFailure)
    else
      let c2 := storeCacheableGet method fullUrl r result tResp cache
      let c3 := invalidateAfterMutation method endpoint c2
      (⟨c3, token⟩, .ok r.status (respOk r) result)

/-- The `try` block after the fetch resolves or rejects: a rejected
fetch lands in `catch`; a `304` consults the cache again (at response
time) and, on a hit, resolves to the cached payload wrapped in a
fabricated `{ status: 200, ok: true }` response; on a miss it falls
through to the body parse. -/
def apiRequestCore (token : Option String) (cache1 : Cache) (endpoint : String)
    (method : Option String) (fullUrl : String) (tResp : Nat)
    (fetchOutcome : FetchOutcome) : ClientState × ApiOutcome :=
  match fetchOutcome with
  | .networkError => (⟨cache1, token⟩, .connError)
  | .success r =>
    if r.status = 304 then
      let lk2 := getCachedResponse cache1 fullUrl 60 tResp
      match lk2.2 with
      | some c => (⟨lk2.1, token⟩, .ok 200 true c.data)
      | none => handleResponse token lk2.1 endpoint method fullUrl tResp r
    else handleResponse token cache1 endpoint method fullUrl tResp r

/-- The pre-request step: only GET requests consult the cache
(`if (!options.method || options.method === 'GET')`), and the lookup
itself can purge an expired entry. -/
def lookupStep (st : ClientState) (method : Option String) (fullUrl : String)
    (tReq : Nat) : Cache × Option CacheEntry :=
  if isGetMethod method then getCachedResponse st.cache fullUrl 60 tReq
  else (st.cache, none)

/-- The `If-None-Match` header attached for a cache hit with a truthy
ETag (`if (cached.etag)`). -/
def inmOf : Option CacheEntry → Option String
  | some c => if c.etag != "" then some c.etag else none
  | none => none

/-- `apiRequest(endpoint, options)`.  `tReq` is `Date.now()` during the
pre-request cache lookup, `tResp` is `Date.now()` during response
handling (`tReq ≤ tResp` in any real run).  For GET requests the cache
is consulted first — which can purge an expired entry — and a truthy
cached ETag is attached as `If-None-Match`.  The fetch is then always
issued; the returned `ApiCall.state` is the client state at the moment
the promise resolves to the caller. -/
def apiRequest (st : ClientState) (endpoint : String) (method : Option String)
    (tReq tResp : Nat) (fetchOutcome : FetchOutcome) : ApiCall :=
  let fullUrl := API_BASE_URL ++ endpoint
  let lk := lookupStep st method fullUrl tReq
  let so := apiRequestCore st.token lk.1 endpoint method fullUrl tResp fetchOutcome
  ⟨so.1, so.2, ⟨fullUrl, inmOf lk.2, st.token.isSome⟩⟩

end LibraryClient

namespace Inventory

/-!
### Inventory rules engine

Modelled from the spec: the server-side inventory rules engine
(`borrow`, `returnBook`, `deleteBook`, `updateBook`, `createBook`) is
not part of the client sources; only its test documentation and setup
notes are present.  The operations below follow the spec's words:
borrow fails with `OutOfStock` when no copy is available and otherwise
decrements `available`; return increments `available` by one, never
exceeding `quantity`; update rejects a new quantity below the borrowed
count and recomputes `available`; create rejects duplicate ISBNs,
malformed ISBNs (not exactly 13 digits) and negative quantities;
delete is refused while a borrowed record exists.
-/

inductive LibError where
  | ValidationError
  | NotFound
  | DuplicateISBN
  | OutOfStock
  | Conflict
  | AlreadyReturned
deriving Repr, DecidableEq

structure Book where
  id : Nat
  title : String
  author : String
  isbn : String
  quantity : Int
  available : Int
deriving Repr, DecidableEq

inductive BStatus where
  | borrowed
  | returned
deriving Repr, DecidableEq

structure BorrowRecord where
  id : Nat
  bookId : Nat
  borrowerName : String
  borrowerEmail : String
  status : BStatus
deriving Repr, DecidableEq

structure Library where
  books : List Book
  records : List BorrowRecord
  nextBookId : Nat
  nextRecordId : Nat
deriving Repr, DecidableEq

/-- ISBNs are fixed-length numeric strings: exactly 13 digits. -/
def validIsbn (s : String) : Bool :=
  s.length = 13 && s.data.all (fun c => c.isDigit)

def findBook (lib : Library) (bookId : Nat) : Option Book :=
  lib.books.find? (fun b => b.id = bookId)

def findRecord (lib : Library) (recordId : Nat) : Option BorrowRecord :=
  lib.records.find? (fun r => r.id = recordId)

/-- `createBook`: duplicate-ISBN and validation guards, then a fresh
book (with a store-assigned unique identifier) whose copies are all
available. -/
def createBook (lib : Library) (title author isbn : String)
    (quantity : Int) : Except LibError Library :=
  if lib.books.any (fun b => b.isbn = isbn) then .error .DuplicateISBN
  else if !(validIsbn isbn) || quantity < 0 then .error .ValidationError
  else .ok { lib with
    books := lib.books ++
      [⟨lib.nextBookId, title, author, isbn, quantity, quantity⟩],
    nextBookId := lib.nextBookId + 1 }

/-- `updateBook(bookId, newQuantity)`: the borrowed count is
`quantity - available`; a new quantity below it is rejected, otherwise
`available` is recomputed as `newQuantity - borrowedCount`. -/
def updateBook (lib : Library) (bookId : Nat) (newQuantity : Int) :
    Except LibError Library :=
  match findBook lib bookId with
  | none => .error .NotFound
  | some b =>
    if newQuantity < b.quantity - b.available then .error .ValidationError
    else .ok { lib with
      books := lib.books.map (fun x =>
        if x.id = bookId then
          { x with quantity := newQuantity,
                   available := newQuantity - (b.quantity - b.available) }
        else x) }

/-- `borrow(bookId, name, email)`: validation, existence and stock
guards, then an atomic decrement of `available` plus a new record with
status `borrowed`. -/
def borrow (lib : Library) (bookId : Nat) (name email : String) :
    Except LibError Library :=
  if name = "" || email = "" then .error .ValidationError
  else
    match findBook lib bookId with
    | none => .error .NotFound
    | some b =>
      if b.available ≤ 0 then .error .OutOfStock
      else .ok
        { lib with
          books := lib.books.map (fun x =>
            if x.id = bookId then { x with available := x.available - 1 } else x),
          records := lib.records ++
            [⟨lib.nextRecordId, bookId, name, email, .borrowed⟩],
          nextRecordId := lib.nextRecordId + 1 }

/-- `returnBook(recordId)`: existence and already-returned guards,
then the record flips to `returned` and the related book's `available`
is incremented by one, never exceeding `quantity`. -/
def returnBook (lib : Library) (recordId : Nat) : Except LibError Library :=
  match findRecord lib recordId with
  | none => .error .NotFound
  | some r =>
    if r.status = .returned then .error .AlreadyReturned
    else .ok
      { lib with
        books := lib.books.map (fun x =>
          if x.id = r.bookId then
            { x with available := min (x.available + 1) x.quantity }
          else x),
        records := lib.records.map (fun y =>
          if y.id = recordId then { y with status := .returned } else y) }

/-- `deleteBook(bookId)`: refused with `Conflict` while any record for
the book is still borrowed, otherwise the book is removed. -/
def deleteBook (lib : Library) (bookId : Nat) : Except LibError Library :=
  if lib.records.any (fun r => r.bookId = bookId && r.status = .borrowed) then
    .error .Conflict
  else .ok { lib with books := lib.books.filter (fun b => b.id ≠ bookId) }

/-- One inventory operation with its arguments. -/
inductive LibOp where
  | createBook (title author isbn : String) (quantity : Int)
  | updateBook (bookId : Nat) (newQuantity : Int)
  | borrow (bookId : Nat) (name email : String)
  | returnBook (recordId : Nat)
  | deleteBook (bookId : Nat)
deriving Repr, DecidableEq

/-- Dispatch one operation to its implementation. -/
def runOp (lib : Library) (op : LibOp) : Except LibError Library :=
  match op with
  | .createBook t a i q => createBook lib t a i q
  | .updateBook b q => updateBook lib b q
  | .borrow b n e => borrow lib b n e
  | .returnBook r => returnBook lib r
  | .deleteBook b => deleteBook lib b

/-- Run one operation; a failing operation leaves the library as it
was (every mutation is a single atomic unit). -/
def applyOp (lib : Library) (op : LibOp) : Library :=
  match runOp lib op with
  | .ok lib' => lib'
  | .error _ => lib

def applyOps (lib : Library) (ops : List LibOp) : Library :=
  ops.foldl applyOp lib

/-- The per-book counter invariant: `0 ≤ available ≤ quantity`. -/
def bookInv (b : Book) : Prop :=
  0 ≤ b.available ∧ b.available ≤ b.quantity

instance (b : Book) : Decidable (bookInv b) := by
  unfold bookInv; infer_instance

/-- Every book of the library satisfies the counter invariant. -/
def libInv (lib : Library) : Prop :=
  ∀ b ∈ lib.books, bookInv b

instance (lib : Library) : Decidable (libInv lib) := by
  unfold libInv; infer_instance

/-- Well-formed library: counters are consistent, book identifiers are
below the next fresh identifier, and identifiers are pairwise
distinct (the data model declares the identifier unique). -/
def libWF (lib : Library) : Prop :=
  libInv lib ∧ (∀ b ∈ lib.books, b.id < lib.nextBookId) ∧
    lib.books.Pairwise (fun x y => x.id ≠ y.id)

instance (lib : Library) : Decidable (libWF lib) := by
  unfold libWF; infer_instance

def emptyLibrary : Library := ⟨[], [], 1, 1⟩

end Inventory

namespace LibraryClient

/-! ### Lemmas about the cache map -/

theorem lookup_append (m m2 : Cache) (k : String) :
    cacheLookup (m ++ m2) k =
      match cacheLookup m k with
      | some v => some v
      | none => cacheLookup m2 k := by
  induction m with
  | nil => simp [cacheLookup]
  | cons kv m ih =>
    obtain ⟨k', v⟩ := kv
    by_cases hkk : k' = k
    · simp [cacheLookup, hkk]
    · have h1 : cacheLookup (((k', v) :: m) ++ m2) k = cacheLookup (m ++ m2) k := by
        simp [cacheLookup, hkk]
      have h2 : cacheLookup ((k', v) :: m) k = cacheLookup m k := by
        simp [cacheLookup, hkk]
      rw [h1, h2, ih]

theorem lookup_clearCache (m : Cache) (p k : String) :
    cacheLookup (clearCache m (some p)) k =
      if strIncludes k p = true then none else cacheLookup m k := by
  induction m with
  | nil =>
    simp only [clearCache, List.filter_nil, cacheLookup]
    split <;> rfl
  | cons kv m ih =>
    obtain ⟨k', v⟩ := kv
    by_cases hk' : strIncludes k' p = true
    · have hdrop : clearCache ((k', v) :: m) (some p) = clearCache m (some p) := by
        simp [clearCache, List.filter_cons, hk']
      rw [hdrop, ih]
      by_cases hkk : k' = k
      · subst hkk; simp [cacheLookup, hk']
      · simp [cacheLookup, hkk]
    · have hkeep : clearCache ((k', v) :: m) (some p) =
          (k', v) :: clearCache m (some p) := by
        simp [clearCache, List.filter_cons, hk']
      rw [hkeep]
      by_cases hkk : k' = k
      · subst hkk
        have hfalse : strIncludes k' p = false := by
          simpa using hk'
        simp [cacheLookup, hfalse]
      · simp [cacheLookup, hkk, ih]

theorem lookup_cacheDelete (m : Cache) (u k : String) :
    cacheLookup (cacheDelete m u) k = if k = u then none else cacheLookup m k := by
  induction m with
  | nil =>
    simp only [cacheDelete, List.filter_nil, cacheLookup]
    split <;> rfl
  | cons kv m ih =>
    obtain ⟨k', v⟩ := kv
    by_cases hk' : k' = u
    · subst hk'
      have hdrop : cacheDelete ((k', v) :: m) k' = cacheDelete m k' := by
        simp [cacheDelete, List.filter_cons]
      rw [hdrop, ih]
      by_cases hkk : k = k'
      · subst hkk; simp [cacheLookup]
      · have : ¬ (k' = k) := fun h => hkk h.symm
        simp [cacheLookup, this]
    · have hkeep : cacheDelete ((k', v) :: m) u = (k', v) :: cacheDelete m u := by
        simp [cacheDelete, List.filter_cons, hk']
      rw [hkeep]
      by_cases hkk : k' = k
      · subst hkk
        simp [cacheLookup, hk']
      · simp [cacheLookup, hkk, ih]

theorem lookup_mapSet (m : Cache) (u : String) (v : CacheEntry) (k : String) :
    cacheLookup (m.map (fun kv => if kv.1 = u then (u, v) else kv)) k =
      if k = u then (cacheLookup m u).map (fun _ => v) else cacheLookup m k := by
  induction m with
  | nil =>
    simp only [List.map_nil, cacheLookup]
    split <;> rfl
  | cons kv m ih =>
    obtain ⟨k', w⟩ := kv
    by_cases hk' : k' = u
    · subst hk'
      simp only [List.map_cons, if_pos rfl]
      by_cases hkk : k = k'
      · subst hkk; simp [cacheLookup]
      · have h1 : ¬ (k' = k) := fun h => hkk h.symm
        simp only [cacheLookup, if_pos rfl, if_neg h1, ih, if_neg hkk]
    · simp only [List.map_cons, if_neg hk']
      by_cases hkk : k' = k
      · subst hkk
        have h2 : ¬ (k' = u) := hk'
        simp [cacheLookup, h2]
      · simp only [cacheLookup, if_neg hkk, ih, if_neg hk']

theorem lookup_cacheSet_self (m : Cache) (u : String) (v : CacheEntry) :
    cacheLookup (cacheSet m u v) u = some v := by
  unfold cacheSet
  by_cases h : (cacheLookup m u).isSome
  · rw [if_pos h, lookup_mapSet, if_pos rfl]
    obtain ⟨w, hw⟩ := Option.isSome_iff_exists.mp h
    simp [hw]
  · rw [if_neg h, lookup_append]
    have hnone : cacheLookup m u = none := by
      cases hx : cacheLookup m u with
      | none => rfl
      | some w => exact absurd (by simp [hx]) h
    simp [hnone, cacheLookup]

theorem lookup_cacheSet_ne (m : Cache) (u : String) (v : CacheEntry) (k : String)
    (h : k ≠ u) : cacheLookup (cacheSet m u v) k = cacheLookup m k := by
  unfold cacheSet
  by_cases hs : (cacheLookup m u).isSome
  · rw [if_pos hs, lookup_mapSet, if_neg h]
  · rw [if_neg hs, lookup_append]
    cases hx : cacheLookup m k with
    | none =>
      have : ¬ (u = k) := fun hu => h hu.symm
      simp [cacheLookup, this]
    | some w => simp

/-! ### Lemmas about `getCachedResponse` -/

theorem getCached_miss (cache : Cache) (url : String) (maxAge now : Nat)
    (h : cacheLookup cache url = none) :
    getCachedResponse cache url maxAge now = (cache, none) := by
  unfold getCachedResponse
  rw [h]

theorem getCached_hit (cache : Cache) (url : String) (maxAge now : Nat)
    (c : CacheEntry) (h : cacheLookup cache url = some c)
    (hfresh : now - c.timestamp ≤ maxAge * 1000) :
    getCachedResponse cache url maxAge now = (cache, some c) := by
  unfold getCachedResponse
  rw [h]
  show (if now - c.timestamp > maxAge * 1000 then (cacheDelete cache url, none)
    else (cache, some c)) = (cache, some c)
  rw [if_neg (by omega)]

theorem getCached_expired (cache : Cache) (url : String) (maxAge now : Nat)
    (c : CacheEntry) (h : cacheLookup cache url = some c)
    (hexp : maxAge * 1000 < now - c.timestamp) :
    getCachedResponse cache url maxAge now = (cacheDelete cache url, none) := by
  unfold getCachedResponse
  rw [h]
  show (if now - c.timestamp > maxAge * 1000 then (cacheDelete cache url, none)
    else (cache, some c)) = (cacheDelete cache url, none)
  rw [if_pos (by omega)]

/-- The map returned by the lookup is the original map or the original
map with the looked-up key removed; every other key is untouched. -/
theorem getCached_fst_cases (cache : Cache) (url : String) (maxAge now : Nat) :
    (getCachedResponse cache url maxAge now).1 = cache ∨
      (getCachedResponse cache url maxAge now).1 = cacheDelete cache url := by
  cases h : cacheLookup cache url with
  | none => rw [getCached_miss cache url maxAge now h]; exact Or.inl rfl
  | some c =>
    by_cases he : maxAge * 1000 < now - c.timestamp
    · rw [getCached_expired cache url maxAge now c h he]; exact Or.inr rfl
    · rw [getCached_hit cache url maxAge now c h (by omega)]; exact Or.inl rfl

/-! ### Facts about the request classification -/

theorem respOk_iff (r : HttpResponse) :
    respOk r = true ↔ 200 ≤ r.status ∧ r.status < 300 := by
  simp [respOk]

theorem respOk_ne_304 (r : HttpResponse) (h : respOk r = true) : r.status ≠ 304 := by
  have := (respOk_iff r).mp h
  omega

theorem respOk_ne_401 (r : HttpResponse) (h : respOk r = true) : r.status ≠ 401 := by
  have := (respOk_iff r).mp h
  omega

theorem isMutation_of_get (mth : Option String) (h : isGetMethod mth = true) :
    isMutation mth = false := by
  cases mth with
  | none => rfl
  | some m =>
    have hm : m = "GET" := by simpa [isGetMethod] using h
    subst hm
    decide

theorem isGet_of_mutation (mth : Option String) (h : isMutation mth = true) :
    isGetMethod mth = false := by
  cases mth with
  | none => simp [isMutation] at h
  | some m =>
    simp only [isMutation, Bool.or_eq_true, decide_eq_true_eq] at h
    rcases h with (h | h) | h <;> (subst h; decide)

/-! ### Lemmas about the response-handling steps -/

theorem storeCacheableGet_of_noEtag (mth : Option String) (fullUrl : String)
    (r : HttpResponse) (result : Payload) (now : Nat) (cache : Cache)
    (h : etagTruthy r.etagHeader = false) :
    storeCacheableGet mth fullUrl r result now cache = cache := by
  unfold storeCacheableGet
  cases he : r.etagHeader with
  | none => rfl
  | some e =>
    have hfe : (e != "") = false := by simpa [etagTruthy, he] using h
    simp [hfe]

theorem storeCacheableGet_of_nonGet (mth : Option String) (fullUrl : String)
    (r : HttpResponse) (result : Payload) (now : Nat) (cache : Cache)
    (h : isGetMethod mth = false) :
    storeCacheableGet mth fullUrl r result now cache = cache := by
  unfold storeCacheableGet
  cases r.etagHeader with
  | none => rfl
  | some e => simp [h]

theorem storeCacheableGet_stores (mth : Option String) (fullUrl : String)
    (r : HttpResponse) (result : Payload) (now : Nat) (cache : Cache)
    (e : String) (hok : respOk r = true) (hget : isGetMethod mth = true)
    (he : r.etagHeader = some e) (hne : (e != "") = true) :
    storeCacheableGet mth fullUrl r result now cache =
      setCachedResponse cache fullUrl result e now := by
  unfold storeCacheableGet
  rw [he]
  simp [hok, hget, hne]

theorem invalidate_of_nonMutation (mth : Option String) (endpoint : String)
    (cache : Cache) (h : isMutation mth = false) :
    invalidateAfterMutation mth endpoint cache = cache := by
  unfold invalidateAfterMutation
  rw [h]
  simp

theorem lookup_invalidate_books (mth : Option String) (endpoint : String)
    (cache : Cache) (k : String)
    (hm : isMutation mth = true)
    (hb : strIncludes endpoint "/books" = true)
    (hk : strIncludes k "/books" = true ∨ strIncludes k "/statistics" = true) :
    cacheLookup (invalidateAfterMutation mth endpoint cache) k = none := by
  unfold invalidateAfterMutation
  rw [if_pos hm, if_pos hb, lookup_clearCache]
  rcases hk with h | h
  · by_cases hs : strIncludes k "/statistics" = true
    · rw [if_pos hs]
    · rw [if_neg hs, lookup_clearCache, if_pos h]
  · rw [if_pos h]

theorem lookup_invalidate_borrow (mth : Option String) (endpoint : String)
    (cache : Cache) (k : String)
    (hm : isMutation mth = true)
    (hnb : strIncludes endpoint "/books" = false)
    (hbr : strIncludes endpoint "/borrow-records" = true)
    (hk : strIncludes k "/borrow-records" = true ∨ strIncludes k "/books" = true ∨
      strIncludes k "/statistics" = true) :
    cacheLookup (invalidateAfterMutation mth endpoint cache) k = none := by
  unfold invalidateAfterMutation
  rw [if_pos hm, if_neg (by simp [hnb]), if_pos hbr, lookup_clearCache]
  by_cases hs : strIncludes k "/statistics" = true
  · rw [if_pos hs]
  · rw [if_neg hs, lookup_clearCache]
    by_cases hb2 : strIncludes k "/books" = true
    · rw [if_pos hb2]
    · rw [if_neg hb2, lookup_clearCache]
      rcases hk with h | h | h
      · rw [if_pos h]
      · exact absurd h hb2
      · exact absurd h hs

theorem lookup_invalidate_or (mth : Option String) (endpoint : String)
    (cache : Cache) (k : String) :
    cacheLookup (invalidateAfterMutation mth endpoint cache) k = cacheLookup cache k ∨
      cacheLookup (invalidateAfterMutation mth endpoint cache) k = none := by
  unfold invalidateAfterMutation
  by_cases hm : isMutation mth = true
  · rw [if_pos hm]
    by_cases hb : strIncludes endpoint "/books" = true
    · rw [if_pos hb, lookup_clearCache]
      by_cases h1 : strIncludes k "/statistics" = true
      · rw [if_pos h1]; right; rfl
      · rw [if_neg h1, lookup_clearCache]
        by_cases h2 : strIncludes k "/books" = true
        · rw [if_pos h2]; right; rfl
        · rw [if_neg h2]; left; rfl
    · rw [if_neg hb]
      by_cases hbr : strIncludes endpoint "/borrow-records" = true
      · rw [if_pos hbr, lookup_clearCache]
        by_cases h1 : strIncludes k "/statistics" = true
        · rw [if_pos h1]; right; rfl
        · rw [if_neg h1, lookup_clearCache]
          by_cases h2 : strIncludes k "/books" = true
          · rw [if_pos h2]; right; rfl
          · rw [if_neg h2, lookup_clearCache]
            by_cases h3 : strIncludes k "/borrow-records" = true
            · rw [if_pos h3]; right; rfl
            · rw [if_neg h3]; left; rfl
      · rw [if_neg hbr]; left; rfl
  · rw [if_neg hm]; left; rfl

/-! ### Path lemmas for `apiRequest` -/

theorem apiRequest_sent (st : ClientState) (endpoint : String) (mth : Option String)
    (tReq tResp : Nat) (f : FetchOutcome) :
    (apiRequest st endpoint mth tReq tResp f).sent =
      ⟨API_BASE_URL ++ endpoint,
       inmOf (lookupStep st mth (API_BASE_URL ++ endpoint) tReq).2,
       st.token.isSome⟩ := rfl

theorem apiRequest_state (st : ClientState) (endpoint : String) (mth : Option String)
    (tReq tResp : Nat) (f : FetchOutcome) :
    (apiRequest st endpoint mth tReq tResp f).state =
      (apiRequestCore st.token
        (lookupStep st mth (API_BASE_URL ++ endpoint) tReq).1 endpoint mth
        (API_BASE_URL ++ endpoint) tResp f).1 := rfl

theorem apiRequest_outcome (st : ClientState) (endpoint : String)
    (mth : Option String) (tReq tResp : Nat) (f : FetchOutcome) :
    (apiRequest st endpoint mth tReq tResp f).outcome =
      (apiRequestCore st.token
        (lookupStep st mth (API_BASE_URL ++ endpoint) tReq).1 endpoint mth
        (API_BASE_URL ++ endpoint) tResp f).2 := rfl

theorem lookupStep_of_get_hit (st : ClientState) (mth : Option String)
    (fullUrl : String) (tReq : Nat) (c : CacheEntry)
    (hget : isGetMethod mth = true)
    (hc : cacheLookup st.cache fullUrl = some c)
    (hfresh : tReq - c.timestamp ≤ 60 * 1000) :
    lookupStep st mth fullUrl tReq = (st.cache, some c) := by
  unfold lookupStep
  rw [if_pos hget]
  exact getCached_hit _ _ _ _ c hc hfresh

theorem lookupStep_of_nonGet (st : ClientState) (mth : Option String)
    (fullUrl : String) (tReq : Nat) (h : isGetMethod mth = false) :
    lookupStep st mth fullUrl tReq = (st.cache, none) := by
  unfold lookupStep
  rw [if_neg (by simp [h])]

theorem apiRequestCore_not304 (token : Option String) (cache1 : Cache)
    (endpoint : String) (mth : Option String) (fullUrl : String) (tResp : Nat)
    (r : HttpResponse) (h304 : r.status ≠ 304) :
    apiRequestCore token cache1 endpoint mth fullUrl tResp (.success r) =
      handleResponse token cache1 endpoint mth fullUrl tResp r := by
  simp only [apiRequestCore, if_neg h304]

theorem handleResponse_ok (token : Option String) (cache : Cache)
    (endpoint : String) (mth : Option String) (fullUrl : String) (tResp : Nat)
    (r : HttpResponse) (b : Payload) (hbody : r.body = some b)
    (h401 : r.status ≠ 401) :
    handleResponse token cache endpoint mth fullUrl tResp r =
      (⟨invalidateAfterMutation mth endpoint
          (storeCacheableGet mth fullUrl r b tResp cache), token⟩,
       .ok r.status (respOk r) b) := by
  simp only [handleResponse, hbody, if_neg h401]

theorem handleResponse_connError (token : Option String) (cache : Cache)
    (endpoint : String) (mth : Option String) (fullUrl : String) (tResp : Nat)
    (r : HttpResponse) (hbody : r.body = none) :
    handleResponse token cache endpoint mth fullUrl tResp r =
      (⟨cache, token⟩, .connError) := by
  simp only [handleResponse, hbody]

theorem handleResponse_401 (token : Option String) (cache : Cache)
    (endpoint : String) (mth : Option String) (fullUrl : String) (tResp : Nat)
    (r : HttpResponse) (b : Payload) (hbody : r.body = some b)
    (h401 : r.status = 401) :
    handleResponse token cache endpoint mth fullUrl tResp r =
      (⟨[], none⟩, .authFailure) := by
  simp only [handleResponse, hbody, if_pos h401]
  rfl

theorem apiRequestCore_304_miss (token : Option String) (cache1 : Cache)
    (endpoint : String) (mth : Option String) (fullUrl : String) (tResp : Nat)
    (r : HttpResponse) (h304 : r.status = 304)
    (hmiss : (getCachedResponse cache1 fullUrl 60 tResp).2 = none) :
    apiRequestCore token cache1 endpoint mth fullUrl tResp (.success r) =
      handleResponse token (getCachedResponse cache1 fullUrl 60 tResp).1
        endpoint mth fullUrl tResp r := by
  simp only [apiRequestCore, if_pos h304, hmiss]

theorem apiRequestCore_304_hit2 (token : Option String) (cache1 : Cache)
    (endpoint : String) (mth : Option String) (fullUrl : String) (tResp : Nat)
    (r : HttpResponse) (c : CacheEntry) (h304 : r.status = 304)
    (hsnd : (getCachedResponse cache1 fullUrl 60 tResp).2 = some c) :
    apiRequestCore token cache1 endpoint mth fullUrl tResp (.success r) =
      (⟨(getCachedResponse cache1 fullUrl 60 tResp).1, token⟩, .ok 200 true c.data) := by
  simp only [apiRequestCore, if_pos h304, hsnd]

theorem lookup_or_trans {m1 m2 m3 : Cache} {k : String}
    (h21 : cacheLookup m2 k = cacheLookup m1 k ∨ cacheLookup m2 k = none)
    (h32 : cacheLookup m3 k = cacheLookup m2 k ∨ cacheLookup m3 k = none) :
    cacheLookup m3 k = cacheLookup m1 k ∨ cacheLookup m3 k = none := by
  rcases h32 with h | h
  · rcases h21 with h2 | h2
    · left; rw [h, h2]
    · right; rw [h, h2]
  · right; exact h

theorem lookup_getCached_fst_or (m : Cache) (url : String) (maxAge now : Nat)
    (k : String) :
    cacheLookup (getCachedResponse m url maxAge now).1 k = cacheLookup m k ∨
      cacheLookup (getCachedResponse m url maxAge now).1 k = none := by
  rcases getCached_fst_cases m url maxAge now with h | h
  · left; rw [h]
  · rw [h, lookup_cacheDelete]
    by_cases hk : k = url
    · right; rw [if_pos hk]
    · left; rw [if_neg hk]

theorem lookup_setCachedResponse_self (m : Cache) (u : String) (d : Payload)
    (e : String) (t : Nat) :
    cacheLookup (setCachedResponse m u d e t) u = some ⟨d, e, t⟩ :=
  lookup_cacheSet_self m u ⟨d, e, t⟩

theorem apiRequestCore_304_hit (token : Option String) (cache1 : Cache)
    (endpoint : String) (mth : Option String) (fullUrl : String) (tResp : Nat)
    (r : HttpResponse) (c : CacheEntry) (h304 : r.status = 304)
    (hhit : getCachedResponse cache1 fullUrl 60 tResp = (cache1, some c)) :
    apiRequestCore token cache1 endpoint mth fullUrl tResp (.success r) =
      (⟨cache1, token⟩, .ok 200 true c.data) := by
  simp only [apiRequestCore, if_pos h304, hhit]

end LibraryClient

namespace Inventory

/-! ### Preservation of the inventory invariant -/

theorem mem_pairwise_ne_eq : ∀ {l : List Book},
    l.Pairwise (fun x y => x.id ≠ y.id) → ∀ {a b : Book},
    a ∈ l → b ∈ l → a.id = b.id → a = b := by
  intro l
  induction l with
  | nil => intro _ a b ha; cases ha
  | cons x l ih =>
    intro hpw a b ha hb hid
    have hx := (List.pairwise_cons.mp hpw).1
    have hpl := (List.pairwise_cons.mp hpw).2
    rcases List.mem_cons.mp ha with rfl | ha'
    · rcases List.mem_cons.mp hb with rfl | hb'
      · rfl
      · exact absurd hid (hx b hb')
    · rcases List.mem_cons.mp hb with rfl | hb'
      · exact absurd hid.symm (hx a ha')
      · exact ih hpl ha' hb' hid

theorem findBook_mem (lib : Library) (bookId : Nat) (b : Book)
    (h : findBook lib bookId = some b) : b ∈ lib.books ∧ b.id = bookId := by
  unfold findBook at h
  refine ⟨List.mem_of_find?_eq_some h, ?_⟩
  have := List.find?_some h
  simpa using this

theorem libWF_createBook (lib : Library) (t a i : String) (q : Int)
    (lib' : Library) (hwf : libWF lib)
    (h : createBook lib t a i q = .ok lib') : libWF lib' := by
  obtain ⟨hinv, hlt, hpw⟩ := hwf
  unfold createBook at h
  split at h
  · simp at h
  · split at h
    · simp at h
    · rename_i hdup hvalid
      injection h with h
      subst h
      have hq : 0 ≤ q := by
        by_contra hq
        push_neg at hq
        exact hvalid (by simp [hq])
      refine ⟨?_, ?_, ?_⟩
      · intro x hx
        rcases List.mem_append.mp hx with hx | hx
        · exact hinv x hx
        · rcases List.mem_singleton.mp hx with rfl
          exact ⟨hq, le_refl q⟩
      · intro x hx
        rcases List.mem_append.mp hx with hx | hx
        · exact Nat.lt_succ_of_lt (hlt x hx)
        · rcases List.mem_singleton.mp hx with rfl
          exact Nat.lt_succ_self _
      · refine List.pairwise_append.mpr ⟨hpw, List.pairwise_singleton _ _, ?_⟩
        intro x hx y hy
        rcases List.mem_singleton.mp hy with rfl
        have := hlt x hx
        show x.id ≠ lib.nextBookId
        omega

theorem libWF_updateBook (lib : Library) (bookId : Nat) (nq : Int)
    (lib' : Library) (hwf : libWF lib)
    (h : updateBook lib bookId nq = .ok lib') : libWF lib' := by
  obtain ⟨hinv, hlt, hpw⟩ := hwf
  unfold updateBook at h
  split at h
  · simp at h
  · rename_i b hb
    split at h
    · simp at h
    · rename_i hguard
      injection h with h
      subst h
      obtain ⟨hbmem, hbid⟩ := findBook_mem lib bookId b hb
      obtain ⟨hb1, hb2⟩ := hinv b hbmem
      have hguard' : b.quantity - b.available ≤ nq := by omega
      refine ⟨?_, ?_, ?_⟩
      · intro x hx
        rcases List.mem_map.mp hx with ⟨y, hy, rfl⟩
        show bookInv (if y.id = bookId then
          { y with quantity := nq, available := nq - (b.quantity - b.available) }
          else y)
        by_cases hid : y.id = bookId
        · rw [if_pos hid]
          constructor
          · show (0 : Int) ≤ nq - (b.quantity - b.available)
            omega
          · show nq - (b.quantity - b.available) ≤ nq
            omega
        · rw [if_neg hid]
          exact hinv y hy
      · intro x hx
        rcases List.mem_map.mp hx with ⟨y, hy, rfl⟩
        show (if y.id = bookId then
          { y with quantity := nq, available := nq - (b.quantity - b.available) }
          else y).id < lib.nextBookId
        by_cases hid : y.id = bookId
        · rw [if_pos hid]
          exact hlt y hy
        · rw [if_neg hid]
          exact hlt y hy
      · rw [List.pairwise_map]
        refine hpw.imp ?_
        intro x y hxy
        by_cases hx : x.id = bookId <;> by_cases hy : y.id = bookId <;>
          simp only [if_pos, if_neg, hx, hy, if_true, if_false] <;>
          simpa [hx, hy] using hxy

theorem libWF_borrow (lib : Library) (bookId : Nat) (n e : String)
    (lib' : Library) (hwf : libWF lib)
    (h : borrow lib bookId n e = .ok lib') : libWF lib' := by
  obtain ⟨hinv, hlt, hpw⟩ := hwf
  unfold borrow at h
  split at h
  · simp at h
  · split at h
    · simp at h
    · rename_i b hb
      split at h
      · simp at h
      · rename_i havail
        injection h with h
        subst h
        obtain ⟨hbmem, hbid⟩ := findBook_mem lib bookId b hb
        obtain ⟨hb1, hb2⟩ := hinv b hbmem
        refine ⟨?_, ?_, ?_⟩
        · intro x hx
          rcases List.mem_map.mp hx with ⟨y, hy, rfl⟩
          show bookInv (if y.id = bookId then
            { y with available := y.available - 1 } else y)
          by_cases hid : y.id = bookId
          · rw [if_pos hid]
            have hyb : y = b := mem_pairwise_ne_eq hpw hy hbmem (by omega)
            subst hyb
            constructor
            · show (0 : Int) ≤ y.available - 1
              omega
            · show y.available - 1 ≤ y.quantity
              omega
          · rw [if_neg hid]
            exact hinv y hy
        · intro x hx
          rcases List.mem_map.mp hx with ⟨y, hy, rfl⟩
          show (if y.id = bookId then
            { y with available := y.available - 1 } else y).id < lib.nextBookId
          by_cases hid : y.id = bookId
          · rw [if_pos hid]
            exact hlt y hy
          · rw [if_neg hid]
            exact hlt y hy
        · rw [List.pairwise_map]
          refine hpw.imp ?_
          intro x y hxy
          by_cases hx : x.id = bookId <;> by_cases hy : y.id = bookId <;>
            simpa [hx, hy] using hxy

theorem libWF_returnBook (lib : Library) (recordId : Nat)
    (lib' : Library) (hwf : libWF lib)
    (h : returnBook lib recordId = .ok lib') : libWF lib' := by
  obtain ⟨hinv, hlt, hpw⟩ := hwf
  unfold returnBook at h
  split at h
  · simp at h
  · rename_i r hr
    split at h
    · simp at h
    · rename_i hst
      injection h with h
      subst h
      refine ⟨?_, ?_, ?_⟩
      · intro x hx
        rcases List.mem_map.mp hx with ⟨y, hy, rfl⟩
        show bookInv (if y.id = r.bookId then
          { y with available := min (y.available + 1) y.quantity } else y)
        obtain ⟨hy1, hy2⟩ := hinv y hy
        by_cases hid : y.id = r.bookId
        · rw [if_pos hid]
          constructor
          · show (0 : Int) ≤ min (y.available + 1) y.quantity
            omega
          · show min (y.available + 1) y.quantity ≤ y.quantity
            omega
        · rw [if_neg hid]
          exact ⟨hy1, hy2⟩
      · intro x hx
        rcases List.mem_map.mp hx with ⟨y, hy, rfl⟩
        show (if y.id = r.bookId then
          { y with available := min (y.available + 1) y.quantity } else y).id <
          lib.nextBookId
        by_cases hid : y.id = r.bookId
        · rw [if_pos hid]
          exact hlt y hy
        · rw [if_neg hid]
          exact hlt y hy
      · rw [List.pairwise_map]
        refine hpw.imp ?_
        intro x y hxy
        by_cases hx : x.id = r.bookId <;> by_cases hy : y.id = r.bookId <;>
          simpa [hx, hy] using hxy

theorem libWF_deleteBook (lib : Library) (bookId : Nat)
    (lib' : Library) (hwf : libWF lib)
    (h : deleteBook lib bookId = .ok lib') : libWF lib' := by
  obtain ⟨hinv, hlt, hpw⟩ := hwf
  unfold deleteBook at h
  split at h
  · simp at h
  · injection h with h
    subst h
    refine ⟨?_, ?_, ?_⟩
    · intro x hx
      exact hinv x (List.mem_of_mem_filter hx)
    · intro x hx
      exact hlt x (List.mem_of_mem_filter hx)
    · exact hpw.sublist (List.filter_sublist _)

theorem libWF_applyOp (lib : Library) (op : LibOp) (hwf : libWF lib) :
    libWF (applyOp lib op) := by
  cases hout : runOp lib op with
  | error err =>
    have : applyOp lib op = lib := by unfold applyOp; rw [hout]
    rw [this]
    exact hwf
  | ok lib' =>
    have happ : applyOp lib op = lib' := by unfold applyOp; rw [hout]
    rw [happ]
    cases op with
    | createBook t a i q =>
      exact libWF_createBook lib t a i q lib' hwf (by simpa [runOp] using hout)
    | updateBook b q =>
      exact libWF_updateBook lib b q lib' hwf (by simpa [runOp] using hout)
    | borrow b n e =>
      exact libWF_borrow lib b n e lib' hwf (by simpa [runOp] using hout)
    | returnBook r =>
      exact libWF_returnBook lib r lib' hwf (by simpa [runOp] using hout)
    | deleteBook b =>
      exact libWF_deleteBook lib b lib' hwf (by simpa [runOp] using hout)

theorem libWF_applyOps (lib : Library) (ops : List LibOp) (hwf : libWF lib) :
    libWF (applyOps lib ops) := by
  induction ops generalizing lib with
  | nil => exact hwf
  | cons op ops ih => exact ih (applyOp lib op) (libWF_applyOp lib op hwf)

end Inventory

namespace LibraryClient

/-! ### Claim theorems for the cache layer -/

/-- Claim C1, counterexample to the claim as stated: for an endpoint
whose path contains both `/books` and `/borrow-records`, a successful
`POST` purges only the `/books` and `/statistics` patterns (the
`/books` branch of the invalidation code shadows the
`/borrow-records` branch), so a cache entry whose key contains
`/borrow-records` survives although the claim demands it be purged. -/
theorem C1_counterexample :
    strIncludes "/books/borrow-records" "/borrow-records" = true ∧
    (apiRequest
        ⟨[("http://localhost:5000/api/borrow-records?page=1", ⟨"old", "e1", 0⟩)],
          some "tok"⟩
        "/books/borrow-records" (some "POST") 0 0
        (.success ⟨201, none, none, some "created"⟩)).outcome =
      .ok 201 true "created" ∧
    cacheLookup
      (apiRequest
        ⟨[("http://localhost:5000/api/borrow-records?page=1", ⟨"old", "e1", 0⟩)],
          some "tok"⟩
        "/books/borrow-records" (some "POST") 0 0
        (.success ⟨201, none, none, some "created"⟩)).state.cache
      "http://localhost:5000/api/borrow-records?page=1" = some ⟨"old", "e1", 0⟩ := by
  decide

/-- Claim C1, amended: for every mutating request (`POST`/`PUT`/
`DELETE`) answered by a successful (2xx) response whose body parses,
the invalidation runs before the promise resolves (the returned state
is the state handed back to the caller): if the endpoint contains
`/books`, every cache entry whose key contains `/books` or
`/statistics` is purged; if the endpoint contains `/borrow-records`
but not `/books` (the `/books` branch takes precedence), every entry
whose key contains `/borrow-records`, `/books` or `/statistics` is
purged. -/
theorem C1_mutation_invalidation (st : ClientState) (endpoint : String)
    (m : String) (tReq tResp : Nat) (r : HttpResponse) (b : Payload) (k : String)
    (hm : isMutation (some m) = true)
    (hok : respOk r = true)
    (hbody : r.body = some b) :
    (strIncludes endpoint "/books" = true →
      (strIncludes k "/books" = true ∨ strIncludes k "/statistics" = true) →
      cacheLookup
        (apiRequest st endpoint (some m) tReq tResp (.success r)).state.cache k =
        none) ∧
    (strIncludes endpoint "/books" = false →
      strIncludes endpoint "/borrow-records" = true →
      (strIncludes k "/borrow-records" = true ∨ strIncludes k "/books" = true ∨
        strIncludes k "/statistics" = true) →
      cacheLookup
        (apiRequest st endpoint (some m) tReq tResp (.success r)).state.cache k =
        none) := by
  have h304 := respOk_ne_304 r hok
  have h401 := respOk_ne_401 r hok
  have hstate : (apiRequest st endpoint (some m) tReq tResp (.success r)).state.cache =
      invalidateAfterMutation (some m) endpoint
        (storeCacheableGet (some m) (API_BASE_URL ++ endpoint) r b tResp
          (lookupStep st (some m) (API_BASE_URL ++ endpoint) tReq).1) := by
    rw [apiRequest_state, apiRequestCore_not304 _ _ _ _ _ _ _ h304,
      handleResponse_ok _ _ _ _ _ _ _ b hbody h401]
  constructor
  · intro hb hk
    rw [hstate]
    exact lookup_invalidate_books _ _ _ _ hm hb hk
  · intro hnb hbr hk
    rw [hstate]
    exact lookup_invalidate_borrow _ _ _ _ hm hnb hbr hk

/-- Claim C1, witness: a concrete successful `POST /books` purges the
cached `/books` listing. -/
theorem C1_mutation_invalidation_witness :
    cacheLookup
      (apiRequest
        ⟨[("http://localhost:5000/api/books?page=1", ⟨"old", "e1", 0⟩)], some "tok"⟩
        "/books" (some "POST") 0 0
        (.success ⟨201, none, none, some "created"⟩)).state.cache
      "http://localhost:5000/api/books?page=1" = none :=
  (C1_mutation_invalidation
      ⟨[("http://localhost:5000/api/books?page=1", ⟨"old", "e1", 0⟩)], some "tok"⟩
      "/books" "POST" 0 0 ⟨201, none, none, some "created"⟩ "created"
      "http://localhost:5000/api/books?page=1"
      (by decide) (by decide) rfl).1 (by decide) (Or.inl (by decide))

/-- Claim C2, counterexample to the claim as stated: a `304` answered
at time 2000 for an entry stored at time 0 returns the cached payload
but leaves the entry's timestamp at 0 — the timestamp is not
refreshed, contradicting the claim's refresh requirement. -/
theorem C2_counterexample :
    (apiRequest
        ⟨[("http://localhost:5000/api/books?page=1", ⟨"body1", "e1", 0⟩)],
          some "tok"⟩
        "/books?page=1" none 1000 2000
        (.success ⟨304, none, none, none⟩)).outcome = .ok 200 true "body1" ∧
    cacheLookup
      (apiRequest
        ⟨[("http://localhost:5000/api/books?page=1", ⟨"body1", "e1", 0⟩)],
          some "tok"⟩
        "/books?page=1" none 1000 2000
        (.success ⟨304, none, none, none⟩)).state.cache
      "http://localhost:5000/api/books?page=1" = some ⟨"body1", "e1", 0⟩ ∧
    (0 : Nat) ≠ 2000 := by
  decide

/-- Claim C2, amended: for a GET to a URL holding an unexpired cache
entry, a `304 Not Modified` hands the caller exactly the cached
payload wrapped in a fabricated `{status: 200, ok: true}` response,
and leaves the whole client state — including the entry's payload,
ETag and timestamp — unchanged; in particular the timestamp is NOT
refreshed. -/
theorem C2_304_serves_cached_payload (st : ClientState) (endpoint : String)
    (mth : Option String) (tReq tResp : Nat) (r : HttpResponse) (c : CacheEntry)
    (hget : isGetMethod mth = true)
    (hc : cacheLookup st.cache (API_BASE_URL ++ endpoint) = some c)
    (ht : tReq ≤ tResp)
    (hfresh : tResp - c.timestamp ≤ 60 * 1000)
    (h304 : r.status = 304) :
    apiRequest st endpoint mth tReq tResp (.success r) =
      ⟨st, .ok 200 true c.data,
       ⟨API_BASE_URL ++ endpoint, inmOf (some c), st.token.isSome⟩⟩ := by
  have hfreshReq : tReq - c.timestamp ≤ 60 * 1000 := by omega
  have hlk := lookupStep_of_get_hit st mth (API_BASE_URL ++ endpoint) tReq c
    hget hc hfreshReq
  have hlk1 : (lookupStep st mth (API_BASE_URL ++ endpoint) tReq).1 = st.cache := by
    rw [hlk]
  have hlk2 : (lookupStep st mth (API_BASE_URL ++ endpoint) tReq).2 = some c := by
    rw [hlk]
  have hhit : getCachedResponse st.cache (API_BASE_URL ++ endpoint) 60 tResp =
      (st.cache, some c) :=
    getCached_hit _ _ _ _ c hc hfresh
  have hs : (apiRequest st endpoint mth tReq tResp (.success r)).state = st := by
    rw [apiRequest_state, hlk1,
      apiRequestCore_304_hit _ _ _ _ _ _ _ c h304 hhit]
  have ho : (apiRequest st endpoint mth tReq tResp (.success r)).outcome =
      .ok 200 true c.data := by
    rw [apiRequest_outcome, hlk1,
      apiRequestCore_304_hit _ _ _ _ _ _ _ c h304 hhit]
  have hsent : (apiRequest st endpoint mth tReq tResp (.success r)).sent =
      ⟨API_BASE_URL ++ endpoint, inmOf (some c), st.token.isSome⟩ := by
    rw [apiRequest_sent, hlk2]
  have hcall : apiRequest st endpoint mth tReq tResp (.success r) =
      ⟨(apiRequest st endpoint mth tReq tResp (.success r)).state,
       (apiRequest st endpoint mth tReq tResp (.success r)).outcome,
       (apiRequest st endpoint mth tReq tResp (.success r)).sent⟩ := rfl
  rw [hcall, hs, ho, hsent]

/-- Claim C2, witness: a concrete `304` on a fresh entry returns the
cached payload and leaves the state untouched. -/
theorem C2_304_serves_cached_payload_witness :
    apiRequest
        ⟨[("http://localhost:5000/api/books?page=1", ⟨"body1", "e1", 5⟩)],
          some "tok"⟩
        "/books?page=1" none 30000 31000 (.success ⟨304, none, none, none⟩) =
      ⟨⟨[("http://localhost:5000/api/books?page=1", ⟨"body1", "e1", 5⟩)],
          some "tok"⟩,
       .ok 200 true (⟨"body1", "e1", 5⟩ : CacheEntry).data,
       ⟨API_BASE_URL ++ "/books?page=1", inmOf (some ⟨"body1", "e1", 5⟩),
        (some "tok").isSome⟩⟩ :=
  C2_304_serves_cached_payload
    ⟨[("http://localhost:5000/api/books?page=1", ⟨"body1", "e1", 5⟩)], some "tok"⟩
    "/books?page=1" none 30000 31000 ⟨304, none, none, none⟩ ⟨"body1", "e1", 5⟩
    rfl (by decide) (by decide) (by decide) rfl

/-- Claim C3: any response with status 401 (whose JSON body parses, as
every response of this server does) empties the whole cache map,
removes the stored token, and resolves to `null` through the
re-authentication path. -/
theorem C3_401_clears_cache_and_token (st : ClientState) (endpoint : String)
    (mth : Option String) (tReq tResp : Nat) (r : HttpResponse) (b : Payload)
    (h401 : r.status = 401) (hbody : r.body = some b) :
    (apiRequest st endpoint mth tReq tResp (.success r)).state.cache = [] ∧
    (apiRequest st endpoint mth tReq tResp (.success r)).state.token = none ∧
    (apiRequest st endpoint mth tReq tResp (.success r)).outcome = .authFailure := by
  have h304 : r.status ≠ 304 := by omega
  have hst : (apiRequest st endpoint mth tReq tResp (.success r)).state =
      ⟨[], none⟩ := by
    rw [apiRequest_state, apiRequestCore_not304 _ _ _ _ _ _ _ h304,
      handleResponse_401 _ _ _ _ _ _ _ b hbody h401]
  have hout : (apiRequest st endpoint mth tReq tResp (.success r)).outcome =
      .authFailure := by
    rw [apiRequest_outcome, apiRequestCore_not304 _ _ _ _ _ _ _ h304,
      handleResponse_401 _ _ _ _ _ _ _ b hbody h401]
  exact ⟨by rw [hst], by rw [hst], hout⟩

/-- Claim C3, witness: a concrete 401 on a GET with a populated cache
empties the cache and drops the token. -/
theorem C3_401_clears_cache_and_token_witness :
    (apiRequest
        ⟨[("http://localhost:5000/api/books?page=1", ⟨"b", "e", 0⟩)], some "tok"⟩
        "/statistics" none 0 0 (.success ⟨401, none, none, some "expired"⟩)).state.cache
      = [] ∧
    (apiRequest
        ⟨[("http://localhost:5000/api/books?page=1", ⟨"b", "e", 0⟩)], some "tok"⟩
        "/statistics" none 0 0 (.success ⟨401, none, none, some "expired"⟩)).state.token
      = none ∧
    (apiRequest
        ⟨[("http://localhost:5000/api/books?page=1", ⟨"b", "e", 0⟩)], some "tok"⟩
        "/statistics" none 0 0 (.success ⟨401, none, none, some "expired"⟩)).outcome
      = .authFailure :=
  C3_401_clears_cache_and_token
    ⟨[("http://localhost:5000/api/books?page=1", ⟨"b", "e", 0⟩)], some "tok"⟩
    "/statistics" none 0 0 ⟨401, none, none, some "expired"⟩ "expired" rfl rfl

end LibraryClient

namespace LibraryClient

/-- Claim C4: when the entry for the requested URL is older than
`maxAge` (60 seconds) at lookup time, the lookup purges the entry and
reports a miss, and the GET then issued carries no `If-None-Match`
header. -/
theorem C4_expired_entry_purged (st : ClientState) (endpoint : String)
    (mth : Option String) (tReq tResp : Nat) (f : FetchOutcome) (c : CacheEntry)
    (hget : isGetMethod mth = true)
    (hc : cacheLookup st.cache (API_BASE_URL ++ endpoint) = some c)
    (hexp : 60 * 1000 < tReq - c.timestamp) :
    getCachedResponse st.cache (API_BASE_URL ++ endpoint) 60 tReq =
      (cacheDelete st.cache (API_BASE_URL ++ endpoint), none) ∧
    (apiRequest st endpoint mth tReq tResp f).sent.ifNoneMatch = none := by
  have hg := getCached_expired st.cache (API_BASE_URL ++ endpoint) 60 tReq c hc hexp
  refine ⟨hg, ?_⟩
  have hlk2 : (lookupStep st mth (API_BASE_URL ++ endpoint) tReq).2 = none := by
    unfold lookupStep
    rw [if_pos hget, hg]
  rw [apiRequest_sent, hlk2]
  rfl

/-- Claim C4, witness: a concrete expired entry is purged and the GET
carries no conditional header. -/
theorem C4_expired_entry_purged_witness :
    getCachedResponse
        [("http://localhost:5000/api/books?page=1", ⟨"b", "e", 0⟩)]
        ("http://localhost:5000/api" ++ "/books?page=1") 60 70000 =
      (cacheDelete [("http://localhost:5000/api/books?page=1", ⟨"b", "e", 0⟩)]
        ("http://localhost:5000/api" ++ "/books?page=1"), none) ∧
    (apiRequest ⟨[("http://localhost:5000/api/books?page=1", ⟨"b", "e", 0⟩)], none⟩
        "/books?page=1" none 70000 70000
        (.success ⟨200, some "e2", none, some "fresh"⟩)).sent.ifNoneMatch = none :=
  C4_expired_entry_purged
    ⟨[("http://localhost:5000/api/books?page=1", ⟨"b", "e", 0⟩)], none⟩
    "/books?page=1" none 70000 70000 (.success ⟨200, some "e2", none, some "fresh"⟩)
    ⟨"b", "e", 0⟩ rfl (by decide) (by decide)

/-- Claim C5: an unexpired cache entry with a truthy ETag makes the
outgoing GET carry `If-None-Match` with exactly that ETag, and the
round trip is still issued — on a transport failure the call reports a
connection error rather than answering from the cache. -/
theorem C5_conditional_get_still_fetches (st : ClientState) (endpoint : String)
    (mth : Option String) (tReq tResp : Nat) (f : FetchOutcome) (c : CacheEntry)
    (hget : isGetMethod mth = true)
    (hc : cacheLookup st.cache (API_BASE_URL ++ endpoint) = some c)
    (hfresh : tReq - c.timestamp ≤ 60 * 1000)
    (hetag : (c.etag != "") = true) :
    (apiRequest st endpoint mth tReq tResp f).sent.ifNoneMatch = some c.etag ∧
    (apiRequest st endpoint mth tReq tResp .networkError).outcome = .connError := by
  have hlk := lookupStep_of_get_hit st mth (API_BASE_URL ++ endpoint) tReq c
    hget hc hfresh
  have hlk2 : (lookupStep st mth (API_BASE_URL ++ endpoint) tReq).2 = some c := by
    rw [hlk]
  constructor
  · rw [apiRequest_sent, hlk2]
    show inmOf (some c) = some c.etag
    simp [inmOf, hetag]
  · rfl

/-- Claim C5, witness: the conditional header is sent for a fresh
entry, and a network failure still yields a connection error. -/
theorem C5_conditional_get_still_fetches_witness :
    (apiRequest ⟨[("http://localhost:5000/api/books?page=1", ⟨"b", "e1", 0⟩)], none⟩
        "/books?page=1" none 30000 31000
        (.success ⟨304, none, none, none⟩)).sent.ifNoneMatch = some
          (⟨"b", "e1", 0⟩ : CacheEntry).etag ∧
    (apiRequest ⟨[("http://localhost:5000/api/books?page=1", ⟨"b", "e1", 0⟩)], none⟩
        "/books?page=1" none 30000 31000 .networkError).outcome = .connError :=
  C5_conditional_get_still_fetches
    ⟨[("http://localhost:5000/api/books?page=1", ⟨"b", "e1", 0⟩)], none⟩
    "/books?page=1" none 30000 31000 (.success ⟨304, none, none, none⟩)
    ⟨"b", "e1", 0⟩ rfl (by decide) (by decide) rfl

/-- Claim C6: a cache entry is created or overwritten exactly by a GET
whose response is 2xx and carries a truthy ETag header — the entry is
keyed by the full URL and stores the parsed body, the ETag, and the
response-handling time; a 2xx GET without a truthy ETag stores
nothing (the cache is exactly the post-lookup map); and a non-GET
request never creates or modifies an entry (every key is unchanged or
purged). -/
theorem C6_cache_entry_lifecycle (st : ClientState) (endpoint : String)
    (mth : Option String) (tReq tResp : Nat) (r : HttpResponse)
    (result : Payload) (e : String) (k : String)
    (hbody : r.body = some result) :
    (isGetMethod mth = true → respOk r = true → r.etagHeader = some e →
      (e != "") = true →
      cacheLookup
        (apiRequest st endpoint mth tReq tResp (.success r)).state.cache
        (API_BASE_URL ++ endpoint) = some ⟨result, e, tResp⟩) ∧
    (isGetMethod mth = true → respOk r = true → etagTruthy r.etagHeader = false →
      (apiRequest st endpoint mth tReq tResp (.success r)).state.cache =
        (getCachedResponse st.cache (API_BASE_URL ++ endpoint) 60 tReq).1) ∧
    (isGetMethod mth = false →
      cacheLookup
        (apiRequest st endpoint mth tReq tResp (.success r)).state.cache k =
        cacheLookup st.cache k ∨
      cacheLookup
        (apiRequest st endpoint mth tReq tResp (.success r)).state.cache k =
        none) := by
  refine ⟨?_, ?_, ?_⟩
  · intro hget hok hetag hne
    have h304 := respOk_ne_304 r hok
    have h401 := respOk_ne_401 r hok
    have hsc : (apiRequest st endpoint mth tReq tResp (.success r)).state.cache =
        setCachedResponse
          (lookupStep st mth (API_BASE_URL ++ endpoint) tReq).1
          (API_BASE_URL ++ endpoint) result e tResp := by
      rw [apiRequest_state, apiRequestCore_not304 _ _ _ _ _ _ _ h304,
        handleResponse_ok _ _ _ _ _ _ _ result hbody h401,
        storeCacheableGet_stores _ _ _ _ _ _ e hok hget hetag hne,
        invalidate_of_nonMutation _ _ _ (isMutation_of_get mth hget)]
    rw [hsc]
    exact lookup_setCachedResponse_self _ _ _ _ _
  · intro hget hok hnoetag
    have h304 := respOk_ne_304 r hok
    have h401 := respOk_ne_401 r hok
    have hlk1 : (lookupStep st mth (API_BASE_URL ++ endpoint) tReq).1 =
        (getCachedResponse st.cache (API_BASE_URL ++ endpoint) 60 tReq).1 := by
      unfold lookupStep
      rw [if_pos hget]
    rw [apiRequest_state, apiRequestCore_not304 _ _ _ _ _ _ _ h304,
      handleResponse_ok _ _ _ _ _ _ _ result hbody h401,
      storeCacheableGet_of_noEtag _ _ _ _ _ _ hnoetag,
      invalidate_of_nonMutation _ _ _ (isMutation_of_get mth hget), hlk1]
  · intro hnonget
    have hlk1 : (lookupStep st mth (API_BASE_URL ++ endpoint) tReq).1 = st.cache := by
      rw [lookupStep_of_nonGet st mth (API_BASE_URL ++ endpoint) tReq hnonget]
    by_cases h304 : r.status = 304
    · cases hsnd : (getCachedResponse st.cache (API_BASE_URL ++ endpoint) 60 tResp).2 with
      | some c =>
        have hsc : (apiRequest st endpoint mth tReq tResp (.success r)).state.cache =
            (getCachedResponse st.cache (API_BASE_URL ++ endpoint) 60 tResp).1 := by
          rw [apiRequest_state, hlk1,
            apiRequestCore_304_hit2 _ _ _ _ _ _ _ c h304 hsnd]
        rw [hsc]
        exact lookup_getCached_fst_or _ _ _ _ _
      | none =>
        have h401 : r.status ≠ 401 := by omega
        have hsc : (apiRequest st endpoint mth tReq tResp (.success r)).state.cache =
            invalidateAfterMutation mth endpoint
              (getCachedResponse st.cache (API_BASE_URL ++ endpoint) 60 tResp).1 := by
          rw [apiRequest_state, hlk1,
            apiRequestCore_304_miss _ _ _ _ _ _ _ h304 hsnd,
            handleResponse_ok _ _ _ _ _ _ _ result hbody h401,
            storeCacheableGet_of_nonGet _ _ _ _ _ _ hnonget]
        rw [hsc]
        exact lookup_or_trans (lookup_getCached_fst_or _ _ _ _ _)
          (lookup_invalidate_or _ _ _ _)
    · by_cases h401 : r.status = 401
      · right
        have hsc : (apiRequest st endpoint mth tReq tResp (.success r)).state.cache =
            [] := by
          rw [apiRequest_state, apiRequestCore_not304 _ _ _ _ _ _ _ h304,
            handleResponse_401 _ _ _ _ _ _ _ result hbody h401]
        rw [hsc]
        rfl
      · have hsc : (apiRequest st endpoint mth tReq tResp (.success r)).state.cache =
            invalidateAfterMutation mth endpoint st.cache := by
          rw [apiRequest_state, hlk1, apiRequestCore_not304 _ _ _ _ _ _ _ h304,
            handleResponse_ok _ _ _ _ _ _ _ result hbody h401,
            storeCacheableGet_of_nonGet _ _ _ _ _ _ hnonget]
        rw [hsc]
        exact lookup_invalidate_or _ _ _ _

/-- Claim C6, witness: a concrete 200-with-ETag GET stores the body
under the full URL, and a concrete `POST` leaves an unrelated key
unchanged or purged. -/
theorem C6_cache_entry_lifecycle_witness :
    cacheLookup
      (apiRequest ⟨[], some "tok"⟩ "/books?page=1" none 0 5
        (.success ⟨200, some "e1", some "max-age=60", some "body1"⟩)).state.cache
      (API_BASE_URL ++ "/books?page=1") = some ⟨"body1", "e1", 5⟩ :=
  (C6_cache_entry_lifecycle ⟨[], some "tok"⟩ "/books?page=1" none 0 5
      ⟨200, some "e1", some "max-age=60", some "body1"⟩ "body1" "e1"
      "unused" rfl).1 rfl rfl rfl rfl

/-- Claim C7, counterexample to the claim as stated: a GET whose
transport fails can still change the cache — the pre-request lookup
already purged the expired entry for the requested URL before `fetch`
rejected, so the cache is not exactly as it was before the call. -/
theorem C7_counterexample :
    (apiRequest
        ⟨[("http://localhost:5000/api/books?page=1", ⟨"body1", "e1", 0⟩)],
          some "tok"⟩
        "/books?page=1" none 70000 70000 .networkError).outcome = .connError ∧
    (apiRequest
        ⟨[("http://localhost:5000/api/books?page=1", ⟨"body1", "e1", 0⟩)],
          some "tok"⟩
        "/books?page=1" none 70000 70000 .networkError).state.cache = [] ∧
    ([("http://localhost:5000/api/books?page=1",
        (⟨"body1", "e1", 0⟩ : CacheEntry))] : Cache) ≠ [] := by
  decide

/-- Claim C7, amended: a transport failure resolves to a connection
error (an outcome distinct from both success and the 401 path), leaves
the token untouched, caches no negative result (every key is unchanged
or merely purged), leaves every key other than the requested URL
exactly as it was, and leaves even the requested URL's entry intact
when it was unexpired at lookup time; the only possible change is the
expiry purge of the requested URL's own stale entry during the
pre-request lookup. -/
theorem C7_network_failure_leaves_state (st : ClientState) (endpoint : String)
    (mth : Option String) (tReq tResp : Nat) (k : String) (c : CacheEntry) :
    (apiRequest st endpoint mth tReq tResp .networkError).outcome = .connError ∧
    (apiRequest st endpoint mth tReq tResp .networkError).state.token = st.token ∧
    (k ≠ API_BASE_URL ++ endpoint →
      cacheLookup (apiRequest st endpoint mth tReq tResp .networkError).state.cache k =
        cacheLookup st.cache k) ∧
    (cacheLookup (apiRequest st endpoint mth tReq tResp .networkError).state.cache k =
        cacheLookup st.cache k ∨
      cacheLookup (apiRequest st endpoint mth tReq tResp .networkError).state.cache k =
        none) ∧
    (cacheLookup st.cache (API_BASE_URL ++ endpoint) = some c →
      tReq - c.timestamp ≤ 60 * 1000 →
      cacheLookup (apiRequest st endpoint mth tReq tResp .networkError).state.cache
        (API_BASE_URL ++ endpoint) = some c) := by
  have hsc : (apiRequest st endpoint mth tReq tResp .networkError).state.cache =
      (lookupStep st mth (API_BASE_URL ++ endpoint) tReq).1 := rfl
  refine ⟨rfl, rfl, ?_, ?_, ?_⟩
  · intro hk
    rw [hsc]
    unfold lookupStep
    by_cases hget : isGetMethod mth = true
    · rw [if_pos hget]
      rcases getCached_fst_cases st.cache (API_BASE_URL ++ endpoint) 60 tReq with h | h
      · rw [h]
      · rw [h, lookup_cacheDelete, if_neg hk]
    · rw [if_neg hget]
  · rw [hsc]
    unfold lookupStep
    by_cases hget : isGetMethod mth = true
    · rw [if_pos hget]
      exact lookup_getCached_fst_or _ _ _ _ _
    · rw [if_neg hget]
      left
      rfl
  · intro hc hfresh
    rw [hsc]
    unfold lookupStep
    by_cases hget : isGetMethod mth = true
    · rw [if_pos hget, getCached_hit _ _ _ _ c hc hfresh]
      exact hc
    · rw [if_neg hget]
      exact hc

/-- Claim C7, witness: a network failure on a GET with a fresh cached
entry leaves the entry, the rest of the cache, and the token exactly
in place. -/
theorem C7_network_failure_leaves_state_witness :
    (apiRequest
        ⟨[("http://localhost:5000/api/books?page=1", ⟨"b", "e", 0⟩)], some "tok"⟩
        "/statistics" none 100 200 .networkError).outcome = .connError ∧
    cacheLookup
      (apiRequest
        ⟨[("http://localhost:5000/api/books?page=1", ⟨"b", "e", 0⟩)], some "tok"⟩
        "/statistics" none 100 200 .networkError).state.cache
      "http://localhost:5000/api/books?page=1" =
      cacheLookup [("http://localhost:5000/api/books?page=1", ⟨"b", "e", 0⟩)]
        "http://localhost:5000/api/books?page=1" :=
  ⟨(C7_network_failure_leaves_state
      ⟨[("http://localhost:5000/api/books?page=1", ⟨"b", "e", 0⟩)], some "tok"⟩
      "/statistics" none 100 200 "http://localhost:5000/api/books?page=1"
      ⟨"b", "e", 0⟩).1,
   (C7_network_failure_leaves_state
      ⟨[("http://localhost:5000/api/books?page=1", ⟨"b", "e", 0⟩)], some "tok"⟩
      "/statistics" none 100 200 "http://localhost:5000/api/books?page=1"
      ⟨"b", "e", 0⟩).2.2.1 (by decide)⟩

/-- Claim C9: a GET answered `304` while the cache no longer holds an
unexpired entry for the URL at response-handling time falls through to
parsing the empty `304` body, which rejects, so the call resolves to
`null` through the connectivity-error path (and the token is kept). -/
theorem C9_stale_304_falls_through (st : ClientState) (endpoint : String)
    (mth : Option String) (tReq tResp : Nat) (r : HttpResponse)
    (_hget : isGetMethod mth = true)
    (h304 : r.status = 304)
    (hbody : r.body = none)
    (hmiss : (getCachedResponse
        (lookupStep st mth (API_BASE_URL ++ endpoint) tReq).1
        (API_BASE_URL ++ endpoint) 60 tResp).2 = none) :
    (apiRequest st endpoint mth tReq tResp (.success r)).outcome = .connError ∧
    (apiRequest st endpoint mth tReq tResp (.success r)).state.token = st.token := by
  constructor
  · rw [apiRequest_outcome, apiRequestCore_304_miss _ _ _ _ _ _ _ h304 hmiss,
      handleResponse_connError _ _ _ _ _ _ _ hbody]
  · rw [apiRequest_state, apiRequestCore_304_miss _ _ _ _ _ _ _ h304 hmiss,
      handleResponse_connError _ _ _ _ _ _ _ hbody]

/-- Claim C9, witness: a `304` with an empty cache yields a connection
error and keeps the token. -/
theorem C9_stale_304_falls_through_witness :
    (apiRequest ⟨[], some "tok"⟩ "/books?page=1" none 0 0
        (.success ⟨304, none, none, none⟩)).outcome = .connError ∧
    (apiRequest ⟨[], some "tok"⟩ "/books?page=1" none 0 0
        (.success ⟨304, none, none, none⟩)).state.token = some "tok" :=
  C9_stale_304_falls_through ⟨[], some "tok"⟩ "/books?page=1" none 0 0
    ⟨304, none, none, none⟩ rfl rfl rfl (by decide)

/-- Claim C10: `clearCache` with a non-null pattern removes exactly
the entries whose key contains the pattern as a substring and leaves
every other entry (payload, ETag and timestamp) untouched. -/
theorem C10_clearCache_exact (m : Cache) (p k : String) :
    cacheLookup (clearCache m (some p)) k =
      if strIncludes k p = true then none else cacheLookup m k :=
  lookup_clearCache m p k

end LibraryClient

namespace Inventory

/-- Claim C8: starting from any well-formed library (counters
consistent, identifiers unique — as the data model requires), every
sequence of inventory operations (`createBook`, `updateBook`,
`borrow`, `returnBook`, `deleteBook`) leaves every book with
`0 ≤ available ≤ quantity`. -/
theorem C8_inventory_counter_invariant (lib : Library) (ops : List LibOp)
    (hwf : libWF lib) : libInv (applyOps lib ops) :=
  (libWF_applyOps lib ops hwf).1

/-- Claim C8, witness: a concrete operation sequence — create a book
with two copies, borrow three times (the third fails with
`OutOfStock`), return once, resize, delete — keeps the invariant from
the empty library. -/
theorem C8_inventory_counter_invariant_witness :
    libWF emptyLibrary ∧
    libInv (applyOps emptyLibrary
      [.createBook "Title" "Author" "9780306406157" 2,
       .borrow 1 "alice" "alice@example.com",
       .borrow 1 "bob" "bob@example.com",
       .borrow 1 "carol" "carol@example.com",
       .returnBook 1,
       .updateBook 1 3,
       .createBook "Other" "Writer" "9783161484100" 1,
       .deleteBook 2]) :=
  ⟨by decide, C8_inventory_counter_invariant emptyLibrary _ (by decide)⟩

end Inventory
